import Mathlib

/-!
Verification of the uni-schedule backend's service layer: the
authentication/token-refresh flow (`internal/service/auth/auth.go`) and the
class CRUD service.  Service methods are embedded shallowly as pure functions
over explicit collaborator interfaces (JWT manager, user/token repositories,
password hashing) and an explicitly threaded state.
-/

namespace UniSchedule

/-- User IDs (`domain.ID`). -/
abbrev ID := Nat

/-- Modelled from the spec: the error taxonomy of `internal/apperror`
(sentinel error values plus a generic wrapping `ServiceError`), which is not
part of the examined sources.  `unexpected` stands for an arbitrary
lower-layer error that is none of the sentinels. -/
inductive AppError where
  | notFound
  | alreadyExists
  | invalidLoginOrPassword
  | usernameAlreadyTaken
  | invalidRefreshToken
  | invalidAccessToken
  | userNotFound
  | dontHavePermission
  | serviceError (ctx : String) (cause : AppError)
  | unexpected (msg : String)
  deriving DecidableEq, Repr

/-- Modelled from the spec: `apperror.NewServiceError(msg, err)` wraps an
unexpected lower-layer error with call-site context (a `ServiceError`). -/
def NewServiceError (ctx : String) (cause : AppError) : AppError :=
  .serviceError ctx cause

/-- Modelled from the spec: Go's `errors.Is`-style sentinel matching, which
sees through `ServiceError`/`fmt.Errorf %w` wrapping. -/
def errorIs : AppError → AppError → Bool
  | e@(.serviceError _ cause), target => e = target || errorIs cause target
  | e, target => e = target

/-- `domain.Role`: role enumerated as student/other. -/
inductive Role where
  | student
  | other
  deriving DecidableEq, Repr

/-- `domain.User`. -/
structure User where
  id : ID
  username : String
  passwordHash : String
  role : Role
  createdAt : Nat
  deriving DecidableEq, Repr

/-- `domain.UserCreate`: the record passed to `UserRepository.Create`. -/
structure UserCreate where
  username : String
  passwordHash : String
  role : Role
  createdAt : Nat
  deriving DecidableEq, Repr

/-- `domain.RefreshToken`: one stored refresh-token record. -/
structure RefreshTokenRec where
  userID : ID
  refreshToken : String
  updatedAt : Nat
  deriving DecidableEq, Repr

/-- `domain.TokenPair`. -/
structure TokenPair where
  accessToken : String
  refreshToken : String
  deriving DecidableEq, Repr

/-- `domain.NewTokenPair`. -/
def NewTokenPair (accessToken refreshToken : String) : TokenPair :=
  ⟨accessToken, refreshToken⟩

/-- The `JWTManager` interface consumed by `AuthService`.  `ω` is the
manager's hidden state (clock/nonce source), threaded so that two calls to a
generator may yield different tokens, as real JWTs (with timestamps) do. -/
structure JWTManager (ω : Type) where
  parseAccessToken : ω → String → Except AppError ID
  parseRefreshToken : ω → String → Except AppError ID
  generateAccessToken : ω → ID → Except AppError (String × ω)
  generateRefreshToken : ω → ID → Except AppError (String × ω)

/-- The `repository.UserRepository` interface over abstract store `σ`. -/
structure UserRepo (σ : Type) where
  getByUsername : σ → String → Except AppError User
  getByID : σ → ID → Except AppError User
  create : σ → UserCreate → Except AppError (ID × σ)

/-- The `repository.TokenRepository` interface over abstract store `σ`. -/
structure TokenRepo (σ : Type) where
  getByUserID : σ → ID → Except AppError RefreshTokenRec
  createOrUpdate : σ → RefreshTokenRec → Except AppError σ

/-- `AuthService`: the injected collaborators, including the `pkg/hash`
password utilities, which are external package functions in the source. -/
structure AuthService (σu σt ω : Type) where
  passwordSalt : String
  userRepo : UserRepo σu
  tokenRepo : TokenRepo σt
  jwtManager : JWTManager ω
  hashPassword : String → String → Except AppError String
  verifyPassword : String → String → String → Bool

/-- The world an `AuthService` call runs in: the two repository stores, the
JWT manager's state, and the current clock reading (`time.Now()`). -/
structure AuthState (σu σt ω : Type) where
  users : σu
  tokens : σt
  jwt : ω
  now : Nat

variable {σu σt ω : Type}

/-- `AuthService.generateTokenPair`: generates an access token and a refresh
token from the user ID via the JWT manager, wrapping any failure. -/
def generateTokenPair (s : AuthService σu σt ω) (st : AuthState σu σt ω)
    (userID : ID) : Except AppError TokenPair × AuthState σu σt ω :=
  match s.jwtManager.generateAccessToken st.jwt userID with
  | .error err =>
      (.error (.serviceError "generateTokenPair.GenerateAccessToken" err), st)
  | .ok (accessToken, jwt1) =>
      match s.jwtManager.generateRefreshToken jwt1 userID with
      | .error err =>
          (.error (.serviceError "generateTokenPair.GenerateRefreshToken" err),
            { st with jwt := jwt1 })
      | .ok (refreshTok, jwt2) =>
          (.ok (NewTokenPair accessToken refreshTok), { st with jwt := jwt2 })

/-- `AuthService.Login`. -/
def login (s : AuthService σu σt ω) (st : AuthState σu σt ω)
    (username password : String) :
    Except AppError TokenPair × AuthState σu σt ω :=
  match s.userRepo.getByUsername st.users username with
  | .error err =>
      if errorIs err .notFound then (.error .invalidLoginOrPassword, st)
      else (.error err, st)
  | .ok user =>
      if ! s.verifyPassword password user.passwordHash s.passwordSalt then
        (.error .invalidLoginOrPassword, st)
      else
        match generateTokenPair s st user.id with
        | (.error err, st1) =>
            (.error (NewServiceError "AuthService.Login:" err), st1)
        | (.ok tokenPair, st1) =>
            match s.tokenRepo.createOrUpdate st1.tokens
                ⟨user.id, tokenPair.refreshToken, st1.now⟩ with
            | .error err =>
                (.error (NewServiceError "AuthService.Login: create or update token" err),
                  st1)
            | .ok tokens1 => (.ok tokenPair, { st1 with tokens := tokens1 })

/-- `AuthService.Register`. -/
def register (s : AuthService σu σt ω) (st : AuthState σu σt ω)
    (username password : String) :
    Except AppError TokenPair × AuthState σu σt ω :=
  match s.hashPassword password s.passwordSalt with
  | .error err =>
      (.error (NewServiceError "AuthService.Register: hashing password" err), st)
  | .ok passwordHash =>
      match s.userRepo.create st.users
          ⟨username, passwordHash, .student, st.now⟩ with
      | .error err =>
          if errorIs err .alreadyExists then
            (.error .usernameAlreadyTaken, st)
          else
            (.error (NewServiceError "AuthService.Register: create user" err), st)
      | .ok (createdID, users1) =>
          match generateTokenPair s { st with users := users1 } createdID with
          | (.error err, st1) =>
              (.error (NewServiceError "AuthService.Register:" err), st1)
          | (.ok tokenPair, st1) =>
              match s.tokenRepo.createOrUpdate st1.tokens
                  ⟨createdID, tokenPair.refreshToken, st1.now⟩ with
              | .error err =>
                  (.error (NewServiceError "AuthService.Register: create or update token" err),
                    st1)
              | .ok tokens1 => (.ok tokenPair, { st1 with tokens := tokens1 })

/-- `AuthService.RefreshToken`. -/
def refreshToken (s : AuthService σu σt ω) (st : AuthState σu σt ω)
    (refreshTok : String) :
    Except AppError TokenPair × AuthState σu σt ω :=
  match s.jwtManager.parseRefreshToken st.jwt refreshTok with
  | .error _ => (.error .invalidRefreshToken, st)
  | .ok userID =>
      match s.tokenRepo.getByUserID st.tokens userID with
      | .error err =>
          if errorIs err .notFound then (.error .userNotFound, st)
          else
            (.error (NewServiceError "AuthService.RefreshToken: getting user by id" err),
              st)
      | .ok storedToken =>
          if storedToken.refreshToken ≠ refreshTok then
            (.error .invalidRefreshToken, st)
          else
            match generateTokenPair s st userID with
            | (.error err, st1) =>
                (.error (NewServiceError "AuthService.RefreshToken:" err), st1)
            | (.ok tokenPair, st1) =>
                match s.tokenRepo.createOrUpdate st1.tokens
                    ⟨userID, tokenPair.refreshToken, st1.now⟩ with
                | .error err =>
                    (.error (NewServiceError "AuthService.RefreshToken: create or update token" err),
                      st1)
                | .ok tokens1 => (.ok tokenPair, { st1 with tokens := tokens1 })

/-- `AuthService.GetUserFromAccessToken`. -/
def getUserFromAccessToken (s : AuthService σu σt ω) (st : AuthState σu σt ω)
    (accessToken : String) : Except AppError User :=
  match s.jwtManager.parseAccessToken st.jwt accessToken with
  | .error _ => .error .invalidAccessToken
  | .ok userID =>
      match s.userRepo.getByID st.users userID with
      | .error _ => .error .userNotFound
      | .ok user => .ok user

/-! ## A concrete token repository

Modelled from the spec: the `TokenRepository` implementation is not among the
examined sources; its contract is `GetByUserID(id) → RefreshToken | NotFound`
and `CreateOrUpdate(RefreshToken)` with create-or-update semantics keyed by
user ID.  We realise it as an association list keyed by `userID`. -/

/-- The stored refresh-token record for a user, if any. -/
def storedFor (tokens : List RefreshTokenRec) (u : ID) : Option RefreshTokenRec :=
  tokens.find? (fun r => r.userID = u)

/-- Modelled from the spec: a `TokenRepository` as an association list with
at most one record per user; `CreateOrUpdate` replaces any record with the
same user ID. -/
def mapTokenRepo : TokenRepo (List RefreshTokenRec) where
  getByUserID tokens u :=
    match storedFor tokens u with
    | some r => .ok r
    | none => .error .notFound
  createOrUpdate tokens r :=
    .ok (r :: tokens.filter (fun x => x.userID ≠ r.userID))

/-- Invariant: at most one stored refresh-token record per user ID. -/
def atMostOnePerUser (tokens : List RefreshTokenRec) : Prop :=
  tokens.Pairwise (fun a b => a.userID ≠ b.userID)

/-! ## ClassService (`src/unnamed/part_000`)

`domain.Class`, `domain.Schedule` and the DTO/view types live in the domain
package outside the examined sources; per the spec, a Class belongs to
exactly one Schedule and a Schedule to exactly one User (owner), so a Class
carries its `scheduleID` and a Schedule its owning `userID`; the DTO and
view types are opaque to this layer and stay type parameters. -/

/-- Modelled from the spec: `domain.Class` — a class record carrying the ID
of the one schedule it belongs to (other fields opaque to this layer). -/
structure ClassRec where
  id : Nat
  scheduleID : Nat
  deriving DecidableEq, Repr

/-- Modelled from the spec: `domain.Schedule` — a schedule record carrying
its owning user's ID (other fields opaque to this layer). -/
structure Schedule where
  id : Nat
  userID : Nat
  deriving DecidableEq, Repr

/-- The `repository.ClassRepository` interface over abstract store `σ`;
`C` is `domain.CreateClassDTO`, `U` is `domain.UpdateClassDTO`, `V` is
`domain.ClassView`.  `getAllViews` mirrors the Go triple return
`([]ClassView, _, error)` where the slice may be populated even on error. -/
structure ClassRepo (σ C U V : Type) where
  createOrSplit : σ → C → Except AppError (Nat × σ)
  getByID : σ → Nat → Except AppError ClassRec
  getAllViews : σ → Nat → List V × Nat × Option AppError
  updateOrSwitch : σ → Nat → Nat → U → Option AppError × σ
  delete : σ → Nat → Option AppError × σ

/-- The `repository.ScheduleRepository` interface (only the part this layer
uses). -/
structure ScheduleRepo (σ : Type) where
  getByID : σ → Nat → Except AppError Schedule

/-- `ClassService`. -/
structure ClassService (σc σs C U V : Type) where
  repo : ClassRepo σc C U V
  scheduleRepo : ScheduleRepo σs

variable {σc σs C U V : Type}

/-- `ClassService.Create`. -/
def classCreate (s : ClassService σc σs C U V) (stc : σc) (class0 : C) :
    Except AppError (Nat × σc) :=
  match s.repo.createOrSplit stc class0 with
  | .error err => .error err
  | .ok (createdClassID, stc1) => .ok (createdClassID, stc1)

/-- `ClassService.GetByID`. -/
def classGetByID (s : ClassService σc σs C U V) (stc : σc) (id : Nat) :
    Except AppError ClassRec :=
  s.repo.getByID stc id

/-- `ClassService.GetAll`: returns the views slice it received from the
repository together with the repository's error, discarding the middle
return value. -/
def classGetAll (s : ClassService σc σs C U V) (stc : σc) (scheduleID : Nat) :
    List V × Option AppError :=
  let (classes, _, err) := s.repo.getAllViews stc scheduleID
  match err with
  | some e => (classes, some e)
  | none => (classes, none)

/-- `ClassService.Update`. -/
def classUpdate (s : ClassService σc σs C U V) (stc : σc) (sts : σs)
    (userID id : Nat) (update : U) : Option AppError × σc :=
  match s.repo.getByID stc id with
  | .error err => (some err, stc)
  | .ok class0 =>
      match s.scheduleRepo.getByID sts class0.scheduleID with
      | .error err => (some err, stc)
      | .ok schedule =>
          if schedule.userID ≠ userID then (some .dontHavePermission, stc)
          else s.repo.updateOrSwitch stc id class0.scheduleID update

/-- `ClassService.isScheduleOwner`. -/
def isScheduleOwner (s : ClassService σc σs C U V) (stc : σc) (sts : σs)
    (userID classID : Nat) : Option AppError :=
  match s.repo.getByID stc classID with
  | .error err => some err
  | .ok entry =>
      match s.scheduleRepo.getByID sts entry.scheduleID with
      | .error err => some err
      | .ok schedule =>
          if schedule.userID ≠ userID then some .dontHavePermission
          else none

/-- `ClassService.Delete`. -/
def classDelete (s : ClassService σc σs C U V) (stc : σc) (sts : σs)
    (userID id : Nat) : Option AppError × σc :=
  match isScheduleOwner s stc sts userID id with
  | some err => (some err, stc)
  | none => s.repo.delete stc id

/-! ## Concrete collaborator instances

Small executable instances used to evaluate the service functions on
concrete inputs. -/

/-- A refresh-token parser recognising the token strings produced by
`demoJWT`'s counter-based generator for the users exercised below. -/
def demoParseRefresh (s : String) : Except AppError ID :=
  if s = "R1x1" then .ok 1
  else if s = "R1x3" then .ok 1
  else if s = "R2x0" then .ok 2
  else if s = "R3x9" then .ok 3
  else if s = "R9x0" then .ok 9
  else .error (.unexpected "parse refresh")

/-- A JWT manager whose state is a counter; generated tokens embed the user
ID and the counter, so successive calls yield distinct tokens. -/
def demoJWT : JWTManager Nat where
  parseAccessToken _ s :=
    if s = "A1ok" then .ok 1 else .error (.unexpected "parse access")
  parseRefreshToken _ s := demoParseRefresh s
  generateAccessToken n u := .ok ("A" ++ toString u ++ "x" ++ toString n, n + 1)
  generateRefreshToken n u := .ok ("R" ++ toString u ++ "x" ++ toString n, n + 1)

/-- A user repository over a list of users, honouring the spec's
`UserRepository` contract (NotFound on missing, AlreadyExists on duplicate
username). -/
def demoUserRepo : UserRepo (List User) where
  getByUsername users name :=
    match users.find? (fun u => u.username = name) with
    | some u => .ok u
    | none => .error .notFound
  getByID users uid :=
    match users.find? (fun u => u.id = uid) with
    | some u => .ok u
    | none => .error .notFound
  create users uc :=
    match users.find? (fun u => u.username = uc.username) with
    | some _ => .error .alreadyExists
    | none =>
        .ok (users.length + 1,
          ⟨users.length + 1, uc.username, uc.passwordHash, uc.role, uc.createdAt⟩ :: users)

/-- A deterministic stand-in for the password hashing utility. -/
def demoHash (password salt : String) : Except AppError String :=
  .ok (password ++ salt)

/-- Verification matching `demoHash`. -/
def demoVerify (password hashv salt : String) : Bool :=
  password ++ salt = hashv

/-- The fully concrete auth service used for evaluation. -/
def demoService : AuthService (List User) (List RefreshTokenRec) Nat where
  passwordSalt := "salt"
  userRepo := demoUserRepo
  tokenRepo := mapTokenRepo
  jwtManager := demoJWT
  hashPassword := demoHash
  verifyPassword := demoVerify

/-- A user repository whose every operation fails with the given error,
modelling an unexpected lower-layer failure. -/
def failingUserRepo (e : AppError) : UserRepo Unit where
  getByUsername _ _ := .error e
  getByID _ _ := .error e
  create _ _ := .error e

/-- An auth service whose user repository always fails with `e`. -/
def failingUserService (e : AppError) : AuthService Unit (List RefreshTokenRec) Nat where
  passwordSalt := "salt"
  userRepo := failingUserRepo e
  tokenRepo := mapTokenRepo
  jwtManager := demoJWT
  hashPassword := demoHash
  verifyPassword := demoVerify

/-- A JWT manager whose generators are down. -/
def failingGenJWT : JWTManager Nat :=
  { demoJWT with generateAccessToken := fun _ _ => .error (.unexpected "gen down") }

/-- An auth service whose token generation always fails. -/
def failingGenService : AuthService (List User) (List RefreshTokenRec) Nat :=
  { demoService with jwtManager := failingGenJWT }

/-- A token repository whose every operation fails, modelling an unexpected
persistence failure. -/
def failingTokenRepo : TokenRepo Unit where
  getByUserID _ _ := .error (.unexpected "token repo down")
  createOrUpdate _ _ := .error (.unexpected "token repo down")

/-- An auth service whose token repository is down. -/
def failingTokenService : AuthService (List User) Unit Nat where
  passwordSalt := "salt"
  userRepo := demoUserRepo
  tokenRepo := failingTokenRepo
  jwtManager := demoJWT
  hashPassword := demoHash
  verifyPassword := demoVerify

/-- A schedule repository over a list of schedules. -/
def demoScheduleRepo : ScheduleRepo (List Schedule) where
  getByID st id :=
    match st.find? (fun r => r.id = id) with
    | some r => .ok r
    | none => .error .notFound

/-- A class repository over a list of classes; its view query fails after
producing a partial slice for schedule 10 and succeeds elsewhere. -/
def demoClassRepo : ClassRepo (List ClassRec) Nat Nat Nat where
  createOrSplit st _ := .ok (1, st)
  getByID st id :=
    match st.find? (fun r => r.id = id) with
    | some r => .ok r
    | none => .error .notFound
  getAllViews _ sid :=
    if sid = 10 then ([7, 8], 9, some (.unexpected "view query down"))
    else ([4, 5, 6], 3, none)
  updateOrSwitch st _ _ _ := (none, st)
  delete st _ := (none, st)

/-- A concrete class service. -/
def demoClassService : ClassService (List ClassRec) (List Schedule) Nat Nat Nat where
  repo := demoClassRepo
  scheduleRepo := demoScheduleRepo

/-- Whether a service call's result is a wrapping `ServiceError`. -/
def returnedServiceError : Except AppError TokenPair → Bool
  | .error (.serviceError _ _) => true
  | _ => false

/-! ## Helper lemmas -/

/-- `generateTokenPair` only touches the JWT manager: the repository stores
and the clock are unchanged whatever it returns. -/
theorem generateTokenPair_preserves (s : AuthService σu σt ω)
    (st : AuthState σu σt ω) (u : ID) (res : Except AppError TokenPair)
    (st1 : AuthState σu σt ω) (h : generateTokenPair s st u = (res, st1)) :
    st1.users = st.users ∧ st1.tokens = st.tokens ∧ st1.now = st.now := by
  unfold generateTokenPair at h
  cases hg1 : s.jwtManager.generateAccessToken st.jwt u with
  | error e => simp only [hg1] at h; cases h; simp
  | ok p =>
      obtain ⟨a, j1⟩ := p
      simp only [hg1] at h
      cases hg2 : s.jwtManager.generateRefreshToken j1 u with
      | error e => simp only [hg2] at h; cases h; simp
      | ok q =>
          obtain ⟨r, j2⟩ := q
          simp only [hg2] at h
          cases h
          simp

/-- After `mapTokenRepo.createOrUpdate`, the stored record for the written
user is exactly the written record. -/
theorem storedFor_overwrite (tokens : List RefreshTokenRec) (r : RefreshTokenRec) :
    storedFor (r :: tokens.filter (fun x => x.userID ≠ r.userID)) r.userID = some r := by
  simp [storedFor]

/-- `mapTokenRepo.createOrUpdate` preserves the one-record-per-user
invariant. -/
theorem atMostOne_overwrite (tokens : List RefreshTokenRec) (r : RefreshTokenRec)
    (h : atMostOnePerUser tokens) :
    atMostOnePerUser (r :: tokens.filter (fun x => x.userID ≠ r.userID)) := by
  unfold atMostOnePerUser at h ⊢
  refine List.pairwise_cons.mpr ⟨?_, h.sublist (List.filter_sublist _)⟩
  intro b hb
  have hbb := List.of_mem_filter hb
  simp only [ne_eq, decide_not, Bool.not_eq_true'] at hbb
  intro hc
  rw [hc] at hbb
  simp at hbb

/-- Forward run of a successful `RefreshToken` over the map-backed token
repository: the presented token matches the stored one and generation
succeeds, so the stored record is overwritten with the new refresh token. -/
theorem refreshToken_ok_fwd (s : AuthService σu (List RefreshTokenRec) ω)
    (st st1 : AuthState σu (List RefreshTokenRec) ω) (t : String) (u : ID)
    (r : RefreshTokenRec) (p : TokenPair)
    (hrepo : s.tokenRepo = mapTokenRepo)
    (hparse : s.jwtManager.parseRefreshToken st.jwt t = .ok u)
    (hstored : storedFor st.tokens u = some r)
    (hmatch : r.refreshToken = t)
    (hgen : generateTokenPair s st u = (.ok p, st1)) :
    refreshToken s st t =
      (.ok p, { st1 with
        tokens := ⟨u, p.refreshToken, st.now⟩ ::
          st.tokens.filter (fun x => x.userID ≠ u) }) := by
  have hpres := generateTokenPair_preserves s st u (.ok p) st1 hgen
  simp only [refreshToken, hparse, hrepo, mapTokenRepo, hstored]
  simp [hmatch, hgen, hpres.2.1, hpres.2.2]

/-- A successful `RefreshToken` leaves the token store holding exactly the
new refresh token for the parsed user on top of the other users' records. -/
theorem refreshToken_ok_inv (s : AuthService σu (List RefreshTokenRec) ω)
    (st stf : AuthState σu (List RefreshTokenRec) ω) (t : String) (u : ID)
    (p : TokenPair)
    (hrepo : s.tokenRepo = mapTokenRepo)
    (hparse : s.jwtManager.parseRefreshToken st.jwt t = .ok u)
    (hrt : refreshToken s st t = (.ok p, stf)) :
    stf.tokens = ⟨u, p.refreshToken, st.now⟩ ::
      st.tokens.filter (fun x => x.userID ≠ u) := by
  unfold refreshToken at hrt
  rw [hparse, hrepo] at hrt
  cases hstored : storedFor st.tokens u with
  | none => simp [mapTokenRepo, hstored, errorIs] at hrt
  | some r =>
      simp only [mapTokenRepo, hstored] at hrt
      by_cases hm : r.refreshToken = t
      · simp only [hm, ne_eq, not_true_eq_false, if_false, ite_false] at hrt
        cases hg : generateTokenPair s st u with
        | mk res st1 =>
            have hpres := generateTokenPair_preserves s st u res st1 hg
            cases res with
            | error e => rw [hg] at hrt; simp [NewServiceError] at hrt
            | ok pair =>
                rw [hg] at hrt
                simp only [mapTokenRepo] at hrt
                cases hrt
                simp [hpres.2.1, hpres.2.2]
      · simp [hm, hstored] at hrt

/-- Forward run of a successful `Login` over the map-backed token
repository. -/
theorem login_ok_fwd (s : AuthService σu (List RefreshTokenRec) ω)
    (st st1 : AuthState σu (List RefreshTokenRec) ω) (name pw : String)
    (user : User) (p : TokenPair)
    (hrepo : s.tokenRepo = mapTokenRepo)
    (hlook : s.userRepo.getByUsername st.users name = .ok user)
    (hverify : s.verifyPassword pw user.passwordHash s.passwordSalt = true)
    (hgen : generateTokenPair s st user.id = (.ok p, st1)) :
    login s st name pw =
      (.ok p, { st1 with
        tokens := ⟨user.id, p.refreshToken, st.now⟩ ::
          st.tokens.filter (fun x => x.userID ≠ user.id) }) := by
  have hpres := generateTokenPair_preserves s st user.id (.ok p) st1 hgen
  simp only [login, hlook, hverify, hrepo, mapTokenRepo]
  simp [hgen, hpres.2.1, hpres.2.2]

/-- A successful `Login` leaves the token store holding exactly the new
refresh token for the authenticated user. -/
theorem login_ok_inv (s : AuthService σu (List RefreshTokenRec) ω)
    (st stf : AuthState σu (List RefreshTokenRec) ω) (name pw : String)
    (user : User) (p : TokenPair)
    (hrepo : s.tokenRepo = mapTokenRepo)
    (hlook : s.userRepo.getByUsername st.users name = .ok user)
    (hlogin : login s st name pw = (.ok p, stf)) :
    stf.tokens = ⟨user.id, p.refreshToken, st.now⟩ ::
      st.tokens.filter (fun x => x.userID ≠ user.id) := by
  unfold login at hlogin
  rw [hlook, hrepo] at hlogin
  by_cases hv : s.verifyPassword pw user.passwordHash s.passwordSalt
  · simp only [hv, Bool.not_true, Bool.false_eq_true, if_false, ite_false] at hlogin
    cases hg : generateTokenPair s st user.id with
    | mk res st1 =>
        have hpres := generateTokenPair_preserves s st user.id res st1 hg
        cases res with
        | error e => rw [hg] at hlogin; simp [NewServiceError] at hlogin
        | ok pair =>
            rw [hg] at hlogin
            simp only [mapTokenRepo] at hlogin
            cases hlogin
            simp [hpres.2.1, hpres.2.2]
  · simp [hv] at hlogin

/-- Forward run of a successful `Register` over the map-backed token
repository. -/
theorem register_ok_fwd (s : AuthService σu (List RefreshTokenRec) ω)
    (st st1 : AuthState σu (List RefreshTokenRec) ω) (name pw hsh : String)
    (cid : ID) (users1 : σu) (p : TokenPair)
    (hrepo : s.tokenRepo = mapTokenRepo)
    (hhash : s.hashPassword pw s.passwordSalt = .ok hsh)
    (hcreate : s.userRepo.create st.users ⟨name, hsh, .student, st.now⟩ = .ok (cid, users1))
    (hgen : generateTokenPair s { st with users := users1 } cid = (.ok p, st1)) :
    register s st name pw =
      (.ok p, { st1 with
        tokens := ⟨cid, p.refreshToken, st.now⟩ ::
          st.tokens.filter (fun x => x.userID ≠ cid) }) := by
  have hpres := generateTokenPair_preserves s { st with users := users1 } cid (.ok p) st1 hgen
  simp only [register, hhash, hcreate, hrepo, mapTokenRepo]
  simp [hgen, hpres.2.1, hpres.2.2]

/-- A successful `Register` leaves the token store holding exactly the new
refresh token for the created user. -/
theorem register_ok_inv (s : AuthService σu (List RefreshTokenRec) ω)
    (st stf : AuthState σu (List RefreshTokenRec) ω) (name pw hsh : String)
    (cid : ID) (users1 : σu) (p : TokenPair)
    (hrepo : s.tokenRepo = mapTokenRepo)
    (hhash : s.hashPassword pw s.passwordSalt = .ok hsh)
    (hcreate : s.userRepo.create st.users ⟨name, hsh, .student, st.now⟩ = .ok (cid, users1))
    (hreg : register s st name pw = (.ok p, stf)) :
    stf.tokens = ⟨cid, p.refreshToken, st.now⟩ ::
      st.tokens.filter (fun x => x.userID ≠ cid) := by
  unfold register at hreg
  simp only [hhash, hcreate, hrepo] at hreg
  cases hg : generateTokenPair s { st with users := users1 } cid with
  | mk res st1 =>
      have hpres := generateTokenPair_preserves s { st with users := users1 } cid res st1 hg
      cases res with
      | error e => simp only [hg] at hreg; simp [NewServiceError] at hreg
      | ok pair =>
          simp only [hg, mapTokenRepo] at hreg
          cases hreg
          simp [hpres.2.1, hpres.2.2]

end UniSchedule

namespace UniSchedule

/-- C3: whether the username lookup reports NotFound or the user exists
but password verification fails, `Login` returns exactly the single error
`InvalidLoginOrPassword`, with the state untouched in both cases. -/
theorem login_collapses_invalid_credentials
    (s : AuthService σu σt ω) (st1 st2 : AuthState σu σt ω)
    (name1 pw1 name2 pw2 : String) (e : AppError) (user : User)
    (h1 : s.userRepo.getByUsername st1.users name1 = .error e)
    (h1n : errorIs e .notFound = true)
    (h2 : s.userRepo.getByUsername st2.users name2 = .ok user)
    (h2v : s.verifyPassword pw2 user.passwordHash s.passwordSalt = false) :
    login s st1 name1 pw1 = (.error .invalidLoginOrPassword, st1) ∧
    login s st2 name2 pw2 = (.error .invalidLoginOrPassword, st2) := by
  constructor
  · simp [login, h1, h1n]
  · simp [login, h2, h2v]

/-- C3 witness: concrete run of both branches against the demo service. -/
theorem login_collapses_invalid_credentials_witness :
    login demoService ⟨[], [], 0, 100⟩ "ghost" "pw"
      = (.error .invalidLoginOrPassword, ⟨[], [], 0, 100⟩) ∧
    login demoService ⟨[⟨1, "alice", "pw1salt", .student, 0⟩], [], 0, 100⟩ "alice" "wrong"
      = (.error .invalidLoginOrPassword, ⟨[⟨1, "alice", "pw1salt", .student, 0⟩], [], 0, 100⟩) :=
  login_collapses_invalid_credentials demoService _ _ "ghost" "pw" "alice" "wrong"
    .notFound ⟨1, "alice", "pw1salt", .student, 0⟩ rfl rfl rfl rfl

/-- C6: when parsing the presented refresh token fails, `RefreshToken`
returns `InvalidRefreshToken` and performs no call on the token repository:
the state is unchanged and the result is the same for every token
repository implementation and store contents. -/
theorem refreshToken_parse_failure_no_repo_access
    (s : AuthService σu σt ω) (st : AuthState σu σt ω) (t : String) (e : AppError)
    (hparse : s.jwtManager.parseRefreshToken st.jwt t = .error e) :
    refreshToken s st t = (.error .invalidRefreshToken, st) ∧
    ∀ (σt2 : Type) (tr : TokenRepo σt2) (tokens2 : σt2),
      refreshToken
        ⟨s.passwordSalt, s.userRepo, tr, s.jwtManager, s.hashPassword, s.verifyPassword⟩
        ⟨st.users, tokens2, st.jwt, st.now⟩ t
      = (.error .invalidRefreshToken, ⟨st.users, tokens2, st.jwt, st.now⟩) := by
  constructor
  · simp [refreshToken, hparse]
  · intro σt2 tr tokens2
    simp [refreshToken, hparse]

/-- C6 witness: concrete run on a garbage token against the demo service. -/
theorem refreshToken_parse_failure_no_repo_access_witness :
    refreshToken demoService ⟨[], [⟨1, "R1x1", 0⟩], 0, 100⟩ "garbage"
      = (.error .invalidRefreshToken, ⟨[], [⟨1, "R1x1", 0⟩], 0, 100⟩) ∧
    ∀ (σt2 : Type) (tr : TokenRepo σt2) (tokens2 : σt2),
      refreshToken
        ⟨demoService.passwordSalt, demoService.userRepo, tr, demoService.jwtManager,
          demoService.hashPassword, demoService.verifyPassword⟩
        ⟨[], tokens2, 0, 100⟩ "garbage"
      = (.error .invalidRefreshToken, ⟨[], tokens2, 0, 100⟩) :=
  refreshToken_parse_failure_no_repo_access demoService ⟨[], [⟨1, "R1x1", 0⟩], 0, 100⟩
    "garbage" (.unexpected "parse refresh") rfl

end UniSchedule

namespace UniSchedule

/-- C7 counterexample: a username lookup failing with the unexpected error
`db down` makes `Login` return that raw repository error itself, not a
wrapping `ServiceError`, refuting the claim as stated. -/
theorem login_propagates_raw_lookup_error_counterexample :
    (login (failingUserService (.unexpected "db down")) ⟨(), [], 0, 100⟩ "bob" "pw").1
      = .error (.unexpected "db down") ∧
    returnedServiceError
      (login (failingUserService (.unexpected "db down")) ⟨(), [], 0, 100⟩ "bob" "pw").1
      = false :=
  ⟨rfl, rfl⟩

/-- C7 amended: for every username lookup in `Login` that fails with an
error other than NotFound, `Login` returns the raw repository error
unchanged (it is not wrapped into a service-level error). -/
theorem login_propagates_raw_lookup_error
    (s : AuthService σu σt ω) (st : AuthState σu σt ω)
    (name pw : String) (e : AppError)
    (h : s.userRepo.getByUsername st.users name = .error e)
    (hn : errorIs e .notFound = false) :
    login s st name pw = (.error e, st) := by
  simp [login, h, hn]

/-- C7 witness: concrete run with a down user repository. -/
theorem login_propagates_raw_lookup_error_witness :
    login (failingUserService (.unexpected "db down")) ⟨(), [], 0, 100⟩ "bob" "pw"
      = (.error (.unexpected "db down"), ⟨(), [], 0, 100⟩) :=
  login_propagates_raw_lookup_error (failingUserService (.unexpected "db down"))
    ⟨(), [], 0, 100⟩ "bob" "pw" (.unexpected "db down") rfl rfl

/-- C4 counterexample: with a valid access token for user 1 and a user
repository failing with the unexpected error `db down`,
`GetUserFromAccessToken` returns `UserNotFound` instead of propagating the
unexpected error with its kind unmodified, refuting the claim as stated. -/
theorem getUserFromAccessToken_spec_counterexample :
    getUserFromAccessToken (failingUserService (.unexpected "db down")) ⟨(), [], 0, 100⟩ "A1ok"
      = .error .userNotFound ∧
    (failingUserService (.unexpected "db down")).jwtManager.parseAccessToken 0 "A1ok" = .ok 1 ∧
    (failingUserService (.unexpected "db down")).userRepo.getByID () 1
      = .error (.unexpected "db down") :=
  ⟨rfl, rfl, rfl⟩

/-- C4 amended: `GetUserFromAccessToken` fails with `InvalidAccessToken`
exactly when parsing fails; when parsing yields a user ID, it fails with
`UserNotFound` whenever the user lookup fails with any error (unexpected
errors are converted too), and returns the user on a successful lookup. -/
theorem getUserFromAccessToken_spec
    (s : AuthService σu σt ω) (st1 st2 st3 : AuthState σu σt ω)
    (t1 t2 t3 : String) (e1 e2 : AppError) (u2 u3 : ID) (user : User)
    (h1 : s.jwtManager.parseAccessToken st1.jwt t1 = .error e1)
    (h2 : s.jwtManager.parseAccessToken st2.jwt t2 = .ok u2)
    (h2e : s.userRepo.getByID st2.users u2 = .error e2)
    (h3 : s.jwtManager.parseAccessToken st3.jwt t3 = .ok u3)
    (h3u : s.userRepo.getByID st3.users u3 = .ok user) :
    getUserFromAccessToken s st1 t1 = .error .invalidAccessToken ∧
    getUserFromAccessToken s st2 t2 = .error .userNotFound ∧
    getUserFromAccessToken s st3 t3 = .ok user := by
  refine ⟨?_, ?_, ?_⟩
  · simp [getUserFromAccessToken, h1]
  · simp [getUserFromAccessToken, h2, h2e]
  · simp [getUserFromAccessToken, h3, h3u]

/-- C4 witness: concrete runs of all three branches. -/
theorem getUserFromAccessToken_spec_witness :
    getUserFromAccessToken demoService ⟨[], [], 0, 100⟩ "junk"
      = .error .invalidAccessToken ∧
    getUserFromAccessToken demoService ⟨[], [], 0, 100⟩ "A1ok"
      = .error .userNotFound ∧
    getUserFromAccessToken demoService ⟨[⟨1, "alice", "pw1salt", .student, 0⟩], [], 0, 100⟩ "A1ok"
      = .ok ⟨1, "alice", "pw1salt", .student, 0⟩ :=
  getUserFromAccessToken_spec demoService _ _ _ "junk" "A1ok" "A1ok"
    (.unexpected "parse access") .notFound 1 1 ⟨1, "alice", "pw1salt", .student, 0⟩
    rfl rfl rfl rfl rfl

/-- C10: `ClassService.GetAll` returns exactly the classes slice received
from the repository view query, both when the query fails (the possibly
partially populated slice is returned together with the error) and when it
succeeds. -/
theorem classGetAll_passes_slice_through
    (s : ClassService σc σs C U V) (stc1 stc2 : σc) (sid1 sid2 : Nat)
    (classes1 classes2 : List V) (n1 n2 : Nat) (e : AppError)
    (hfail : s.repo.getAllViews stc1 sid1 = (classes1, n1, some e))
    (hok : s.repo.getAllViews stc2 sid2 = (classes2, n2, none)) :
    classGetAll s stc1 sid1 = (classes1, some e) ∧
    classGetAll s stc2 sid2 = (classes2, none) := by
  constructor
  · simp [classGetAll, hfail]
  · simp [classGetAll, hok]

/-- C10 witness: concrete runs of both branches. -/
theorem classGetAll_passes_slice_through_witness :
    classGetAll demoClassService [] 10 = ([7, 8], some (.unexpected "view query down")) ∧
    classGetAll demoClassService [] 3 = ([4, 5, 6], none) :=
  classGetAll_passes_slice_through demoClassService [] [] 10 3 [7, 8] [4, 5, 6] 9 3
    (.unexpected "view query down") rfl rfl

/-- C8: when the class's schedule exists and its owner differs from the
acting user, `ClassService.Update` returns `DontHavePermission` with the
store untouched, for every update DTO and every `updateOrSwitch`
implementation (so the write is never invoked); the shared ownership check
and `Delete` reject identically. -/
theorem classUpdate_delete_ownership_guard
    (s : ClassService σc σs C U V) (stc : σc) (sts : σs) (userID id : Nat)
    (c : ClassRec) (sch : Schedule)
    (hc : s.repo.getByID stc id = .ok c)
    (hs : s.scheduleRepo.getByID sts c.scheduleID = .ok sch)
    (hne : sch.userID ≠ userID) :
    (∀ update, classUpdate s stc sts userID id update = (some .dontHavePermission, stc)) ∧
    (∀ (uos : σc → Nat → Nat → U → Option AppError × σc) (update : U),
      classUpdate
        ⟨⟨s.repo.createOrSplit, s.repo.getByID, s.repo.getAllViews, uos, s.repo.delete⟩,
          s.scheduleRepo⟩ stc sts userID id update
        = (some .dontHavePermission, stc)) ∧
    isScheduleOwner s stc sts userID id = some .dontHavePermission ∧
    classDelete s stc sts userID id = (some .dontHavePermission, stc) := by
  refine ⟨?_, ?_, ?_, ?_⟩
  · intro update
    simp [classUpdate, hc, hs, hne]
  · intro uos update
    simp [classUpdate, hc, hs, hne]
  · simp [isScheduleOwner, hc, hs, hne]
  · simp [classDelete, isScheduleOwner, hc, hs, hne]

/-- C8 witness: concrete run with a non-owning user. -/
theorem classUpdate_delete_ownership_guard_witness :
    (∀ update, classUpdate demoClassService [⟨5, 10⟩] [⟨10, 42⟩] 7 5 update
      = (some .dontHavePermission, [⟨5, 10⟩])) ∧
    (∀ (uos : List ClassRec → Nat → Nat → Nat → Option AppError × List ClassRec) (update : Nat),
      classUpdate
        ⟨⟨demoClassService.repo.createOrSplit, demoClassService.repo.getByID,
            demoClassService.repo.getAllViews, uos, demoClassService.repo.delete⟩,
          demoClassService.scheduleRepo⟩ [⟨5, 10⟩] [⟨10, 42⟩] 7 5 update
        = (some .dontHavePermission, [⟨5, 10⟩])) ∧
    isScheduleOwner demoClassService [⟨5, 10⟩] [⟨10, 42⟩] 7 5 = some .dontHavePermission ∧
    classDelete demoClassService [⟨5, 10⟩] [⟨10, 42⟩] 7 5
      = (some .dontHavePermission, [⟨5, 10⟩]) :=
  classUpdate_delete_ownership_guard demoClassService [⟨5, 10⟩] [⟨10, 42⟩] 7 5
    ⟨5, 10⟩ ⟨10, 42⟩ rfl rfl (by decide)

end UniSchedule

namespace UniSchedule

/-- C1: when parsing the presented token succeeds, `RefreshToken` fails
with `UserNotFound` if no refresh token is stored for the parsed user,
fails with `InvalidRefreshToken` if the stored token differs from the
presented one, and otherwise returns the freshly generated pair and
overwrites the stored refresh token with the new pair's refresh token. -/
theorem refreshToken_matches_spec
    (s : AuthService σu (List RefreshTokenRec) ω)
    (st st1 : AuthState σu (List RefreshTokenRec) ω)
    (t1 t2 t3 : String) (u1 u2 u3 : ID) (r2 r3 : RefreshTokenRec) (p : TokenPair)
    (hrepo : s.tokenRepo = mapTokenRepo)
    (hp1 : s.jwtManager.parseRefreshToken st.jwt t1 = .ok u1)
    (hs1 : storedFor st.tokens u1 = none)
    (hp2 : s.jwtManager.parseRefreshToken st.jwt t2 = .ok u2)
    (hs2 : storedFor st.tokens u2 = some r2)
    (hne2 : r2.refreshToken ≠ t2)
    (hp3 : s.jwtManager.parseRefreshToken st.jwt t3 = .ok u3)
    (hs3 : storedFor st.tokens u3 = some r3)
    (heq3 : r3.refreshToken = t3)
    (hgen : generateTokenPair s st u3 = (.ok p, st1)) :
    refreshToken s st t1 = (.error .userNotFound, st) ∧
    refreshToken s st t2 = (.error .invalidRefreshToken, st) ∧
    (refreshToken s st t3).1 = .ok p ∧
    storedFor (refreshToken s st t3).2.tokens u3 = some ⟨u3, p.refreshToken, st.now⟩ := by
  have hfwd := refreshToken_ok_fwd s st st1 t3 u3 r3 p hrepo hp3 hs3 heq3 hgen
  refine ⟨?_, ?_, ?_, ?_⟩
  · simp [refreshToken, hp1, hrepo, mapTokenRepo, hs1, errorIs]
  · simp [refreshToken, hp2, hrepo, mapTokenRepo, hs2, hne2]
  · rw [hfwd]
  · rw [hfwd]
    exact storedFor_overwrite st.tokens ⟨u3, p.refreshToken, st.now⟩

/-- C1 witness: concrete runs of all three branches against the demo
service with two stored tokens. -/
theorem refreshToken_matches_spec_witness :
    refreshToken demoService ⟨[], [⟨2, "R2x9", 0⟩, ⟨3, "R3x9", 0⟩], 0, 100⟩ "R9x0"
      = (.error .userNotFound, ⟨[], [⟨2, "R2x9", 0⟩, ⟨3, "R3x9", 0⟩], 0, 100⟩) ∧
    refreshToken demoService ⟨[], [⟨2, "R2x9", 0⟩, ⟨3, "R3x9", 0⟩], 0, 100⟩ "R2x0"
      = (.error .invalidRefreshToken, ⟨[], [⟨2, "R2x9", 0⟩, ⟨3, "R3x9", 0⟩], 0, 100⟩) ∧
    (refreshToken demoService ⟨[], [⟨2, "R2x9", 0⟩, ⟨3, "R3x9", 0⟩], 0, 100⟩ "R3x9").1
      = .ok ⟨"A3x0", "R3x1"⟩ ∧
    storedFor
      (refreshToken demoService ⟨[], [⟨2, "R2x9", 0⟩, ⟨3, "R3x9", 0⟩], 0, 100⟩ "R3x9").2.tokens 3
      = some ⟨3, "R3x1", 100⟩ :=
  refreshToken_matches_spec demoService ⟨[], [⟨2, "R2x9", 0⟩, ⟨3, "R3x9", 0⟩], 0, 100⟩
    ⟨[], [⟨2, "R2x9", 0⟩, ⟨3, "R3x9", 0⟩], 2, 100⟩ "R9x0" "R2x0" "R3x9" 9 2 3
    ⟨2, "R2x9", 0⟩ ⟨3, "R3x9", 0⟩ ⟨"A3x0", "R3x1"⟩
    rfl rfl rfl rfl rfl (by decide) rfl rfl rfl rfl

end UniSchedule

namespace UniSchedule

/-- C5: `Register` hashes the password and creates a user with role
student and the current timestamp; a duplicate (AlreadyExists) from the
repository becomes `UsernameAlreadyTaken`; on success it returns the
generated pair and persists its refresh token for the created user exactly
as `Login` does (create-or-update keyed by user ID, stamped with the
current time). -/
theorem register_matches_spec
    (s : AuthService σu (List RefreshTokenRec) ω)
    (stA stB st1 : AuthState σu (List RefreshTokenRec) ω)
    (nameA pwA nameB pwB hshA hshB : String) (eA : AppError)
    (cid : ID) (users1 : σu) (p : TokenPair)
    (hrepo : s.tokenRepo = mapTokenRepo)
    (hhashA : s.hashPassword pwA s.passwordSalt = .ok hshA)
    (hdup : s.userRepo.create stA.users ⟨nameA, hshA, .student, stA.now⟩ = .error eA)
    (hdupa : errorIs eA .alreadyExists = true)
    (hhashB : s.hashPassword pwB s.passwordSalt = .ok hshB)
    (hcreate : s.userRepo.create stB.users ⟨nameB, hshB, .student, stB.now⟩ = .ok (cid, users1))
    (hgen : generateTokenPair s { stB with users := users1 } cid = (.ok p, st1)) :
    register s stA nameA pwA = (.error .usernameAlreadyTaken, stA) ∧
    (register s stB nameB pwB).1 = .ok p ∧
    (register s stB nameB pwB).2.users = st1.users ∧
    storedFor (register s stB nameB pwB).2.tokens cid
      = some ⟨cid, p.refreshToken, stB.now⟩ := by
  have hfwd := register_ok_fwd s stB st1 nameB pwB hshB cid users1 p hrepo hhashB hcreate hgen
  refine ⟨?_, ?_, ?_, ?_⟩
  · simp [register, hhashA, hdup, hdupa]
  · rw [hfwd]
  · rw [hfwd]
  · rw [hfwd]
    exact storedFor_overwrite stB.tokens ⟨cid, p.refreshToken, stB.now⟩

/-- C5 witness: concrete runs of the duplicate and fresh branches. -/
theorem register_matches_spec_witness :
    register demoService ⟨[⟨1, "alice", "pw1salt", .student, 0⟩], [], 0, 100⟩ "alice" "pw9"
      = (.error .usernameAlreadyTaken, ⟨[⟨1, "alice", "pw1salt", .student, 0⟩], [], 0, 100⟩) ∧
    (register demoService ⟨[], [], 0, 100⟩ "bob" "pw2").1 = .ok ⟨"A1x0", "R1x1"⟩ ∧
    (register demoService ⟨[], [], 0, 100⟩ "bob" "pw2").2.users
      = [⟨1, "bob", "pw2salt", .student, 100⟩] ∧
    storedFor (register demoService ⟨[], [], 0, 100⟩ "bob" "pw2").2.tokens 1
      = some ⟨1, "R1x1", 100⟩ :=
  register_matches_spec demoService ⟨[⟨1, "alice", "pw1salt", .student, 0⟩], [], 0, 100⟩
    ⟨[], [], 0, 100⟩ ⟨[⟨1, "bob", "pw2salt", .student, 100⟩], [], 2, 100⟩
    "alice" "pw9" "bob" "pw2" "pw9salt" "pw2salt" .alreadyExists 1
    [⟨1, "bob", "pw2salt", .student, 100⟩] ⟨"A1x0", "R1x1"⟩
    rfl rfl rfl rfl rfl rfl rfl

/-- C9: `Register` is not atomic: once the user repository has created the
user, a token-generation failure or a refresh-token persist failure makes
`Register` return a wrapped service error while the created user remains
persisted, and on a generation failure the token store is untouched. -/
theorem register_not_atomic
    {σu2 σt2 ω2 : Type}
    (sA : AuthService σu σt ω) (stA stA1 : AuthState σu σt ω)
    (nameA pwA hshA : String) (cidA : ID) (usersA : σu) (eA : AppError)
    (sB : AuthService σu2 σt2 ω2) (stB stB1 : AuthState σu2 σt2 ω2)
    (nameB pwB hshB : String) (cidB : ID) (usersB : σu2) (eB : AppError) (p : TokenPair)
    (hhashA : sA.hashPassword pwA sA.passwordSalt = .ok hshA)
    (hcreateA : sA.userRepo.create stA.users ⟨nameA, hshA, .student, stA.now⟩ = .ok (cidA, usersA))
    (hgenA : generateTokenPair sA { stA with users := usersA } cidA = (.error eA, stA1))
    (hhashB : sB.hashPassword pwB sB.passwordSalt = .ok hshB)
    (hcreateB : sB.userRepo.create stB.users ⟨nameB, hshB, .student, stB.now⟩ = .ok (cidB, usersB))
    (hgenB : generateTokenPair sB { stB with users := usersB } cidB = (.ok p, stB1))
    (hpersistB : sB.tokenRepo.createOrUpdate stB1.tokens ⟨cidB, p.refreshToken, stB1.now⟩
      = .error eB) :
    register sA stA nameA pwA
      = (.error (NewServiceError "AuthService.Register:" eA), stA1) ∧
    stA1.users = usersA ∧
    stA1.tokens = stA.tokens ∧
    register sB stB nameB pwB
      = (.error (NewServiceError "AuthService.Register: create or update token" eB), stB1) ∧
    stB1.users = usersB := by
  have hpresA := generateTokenPair_preserves sA { stA with users := usersA } cidA (.error eA) stA1 hgenA
  have hpresB := generateTokenPair_preserves sB { stB with users := usersB } cidB (.ok p) stB1 hgenB
  refine ⟨?_, ?_, ?_, ?_, ?_⟩
  · simp only [register, hhashA, hcreateA, hgenA]
  · exact hpresA.1
  · exact hpresA.2.1
  · simp only [register, hhashB, hcreateB, hgenB, hpersistB]
  · exact hpresB.1

/-- C9 witness: concrete runs with a failing generator and a failing token
repository. -/
theorem register_not_atomic_witness :
    register failingGenService ⟨[], [], 0, 100⟩ "alice" "pw1"
      = (.error (NewServiceError "AuthService.Register:"
          (.serviceError "generateTokenPair.GenerateAccessToken" (.unexpected "gen down"))),
        ⟨[⟨1, "alice", "pw1salt", .student, 100⟩], [], 0, 100⟩) ∧
    (⟨[⟨1, "alice", "pw1salt", .student, 100⟩], [], 0, 100⟩
      : AuthState (List User) (List RefreshTokenRec) Nat).users
      = [⟨1, "alice", "pw1salt", .student, 100⟩] ∧
    (⟨[⟨1, "alice", "pw1salt", .student, 100⟩], [], 0, 100⟩
      : AuthState (List User) (List RefreshTokenRec) Nat).tokens
      = ([] : List RefreshTokenRec) ∧
    register failingTokenService ⟨[], (), 0, 100⟩ "carol" "pw3"
      = (.error (NewServiceError "AuthService.Register: create or update token"
          (.unexpected "token repo down")),
        ⟨[⟨1, "carol", "pw3salt", .student, 100⟩], (), 2, 100⟩) ∧
    (⟨[⟨1, "carol", "pw3salt", .student, 100⟩], (), 2, 100⟩
      : AuthState (List User) Unit Nat).users
      = [⟨1, "carol", "pw3salt", .student, 100⟩] :=
  register_not_atomic failingGenService ⟨[], [], 0, 100⟩
    ⟨[⟨1, "alice", "pw1salt", .student, 100⟩], [], 0, 100⟩ "alice" "pw1" "pw1salt" 1
    [⟨1, "alice", "pw1salt", .student, 100⟩]
    (.serviceError "generateTokenPair.GenerateAccessToken" (.unexpected "gen down"))
    failingTokenService ⟨[], (), 0, 100⟩
    ⟨[⟨1, "carol", "pw3salt", .student, 100⟩], (), 2, 100⟩ "carol" "pw3" "pw3salt" 1
    [⟨1, "carol", "pw3salt", .student, 100⟩] (.unexpected "token repo down")
    ⟨"A1x0", "R1x1"⟩ rfl rfl rfl rfl rfl rfl rfl

end UniSchedule

namespace UniSchedule

/-- C2: over the map-backed token repository each user has at most one
stored refresh token and every successful `Login`, `Register` or
`RefreshToken` overwrites it with the newly issued refresh token;
consequently, after a successful `RefreshToken` returning a new refresh
token distinct from the presented one, re-presenting the old token fails
with `InvalidRefreshToken` while the new token succeeds. -/
theorem token_rotation_invariant
    {σu2 σu3 ω2 ω3 : Type}
    (sL : AuthService σu2 (List RefreshTokenRec) ω2)
    (stL stL' : AuthState σu2 (List RefreshTokenRec) ω2)
    (nameL pwL : String) (userL : User) (pL : TokenPair)
    (sR : AuthService σu3 (List RefreshTokenRec) ω3)
    (stR stR' : AuthState σu3 (List RefreshTokenRec) ω3)
    (nameR pwR hshR : String) (cidR : ID) (usersR : σu3) (pR : TokenPair)
    (s : AuthService σu (List RefreshTokenRec) ω)
    (st st' st2 : AuthState σu (List RefreshTokenRec) ω)
    (tok1 : String) (u : ID) (p p2 : TokenPair)
    (hrepoL : sL.tokenRepo = mapTokenRepo)
    (hmoL : atMostOnePerUser stL.tokens)
    (hlookL : sL.userRepo.getByUsername stL.users nameL = .ok userL)
    (hloginL : login sL stL nameL pwL = (.ok pL, stL'))
    (hrepoR : sR.tokenRepo = mapTokenRepo)
    (hmoR : atMostOnePerUser stR.tokens)
    (hhashR : sR.hashPassword pwR sR.passwordSalt = .ok hshR)
    (hcreateR : sR.userRepo.create stR.users ⟨nameR, hshR, .student, stR.now⟩
      = .ok (cidR, usersR))
    (hregR : register sR stR nameR pwR = (.ok pR, stR'))
    (hrepo : s.tokenRepo = mapTokenRepo)
    (hmo : atMostOnePerUser st.tokens)
    (hparse1 : s.jwtManager.parseRefreshToken st.jwt tok1 = .ok u)
    (hrt : refreshToken s st tok1 = (.ok p, st'))
    (hne : p.refreshToken ≠ tok1)
    (hparse1' : s.jwtManager.parseRefreshToken st'.jwt tok1 = .ok u)
    (hparse2' : s.jwtManager.parseRefreshToken st'.jwt p.refreshToken = .ok u)
    (hgen2 : generateTokenPair s st' u = (.ok p2, st2)) :
    atMostOnePerUser stL'.tokens ∧
    storedFor stL'.tokens userL.id = some ⟨userL.id, pL.refreshToken, stL.now⟩ ∧
    atMostOnePerUser stR'.tokens ∧
    storedFor stR'.tokens cidR = some ⟨cidR, pR.refreshToken, stR.now⟩ ∧
    atMostOnePerUser st'.tokens ∧
    storedFor st'.tokens u = some ⟨u, p.refreshToken, st.now⟩ ∧
    refreshToken s st' tok1 = (.error .invalidRefreshToken, st') ∧
    (refreshToken s st' p.refreshToken).1 = .ok p2 := by
  have hshapeL := login_ok_inv sL stL stL' nameL pwL userL pL hrepoL hlookL hloginL
  have hshapeR := register_ok_inv sR stR stR' nameR pwR hshR cidR usersR pR hrepoR
    hhashR hcreateR hregR
  have hshape := refreshToken_ok_inv s st st' tok1 u p hrepo hparse1 hrt
  have hsf : storedFor st'.tokens u = some ⟨u, p.refreshToken, st.now⟩ := by
    rw [hshape]
    exact storedFor_overwrite st.tokens ⟨u, p.refreshToken, st.now⟩
  refine ⟨?_, ?_, ?_, ?_, ?_, hsf, ?_, ?_⟩
  · rw [hshapeL]
    exact atMostOne_overwrite stL.tokens ⟨userL.id, pL.refreshToken, stL.now⟩ hmoL
  · rw [hshapeL]
    exact storedFor_overwrite stL.tokens ⟨userL.id, pL.refreshToken, stL.now⟩
  · rw [hshapeR]
    exact atMostOne_overwrite stR.tokens ⟨cidR, pR.refreshToken, stR.now⟩ hmoR
  · rw [hshapeR]
    exact storedFor_overwrite stR.tokens ⟨cidR, pR.refreshToken, stR.now⟩
  · rw [hshape]
    exact atMostOne_overwrite st.tokens ⟨u, p.refreshToken, st.now⟩ hmo
  · simp [refreshToken, hparse1', hrepo, mapTokenRepo, hsf, hne]
  · have hfwd := refreshToken_ok_fwd s st' st2 p.refreshToken u
      ⟨u, p.refreshToken, st.now⟩ p2 hrepo hparse2' hsf rfl hgen2
    rw [hfwd]

end UniSchedule

namespace UniSchedule

/-- C2 witness: the spec scenario Login, Register and
RefreshToken-then-rotate run concretely on the demo service. -/
theorem token_rotation_invariant_witness :
    atMostOnePerUser
      ((⟨[⟨1, "alice", "pw1salt", .student, 0⟩], [⟨1, "R1x1", 100⟩], 2, 100⟩
        : AuthState (List User) (List RefreshTokenRec) Nat).tokens) ∧
    storedFor [⟨1, "R1x1", 100⟩] 1 = some ⟨1, "R1x1", 100⟩ ∧
    atMostOnePerUser
      ((⟨[⟨1, "bob", "pw2salt", .student, 100⟩], [⟨1, "R1x1", 100⟩], 2, 100⟩
        : AuthState (List User) (List RefreshTokenRec) Nat).tokens) ∧
    storedFor [⟨1, "R1x1", 100⟩] 1 = some ⟨1, "R1x1", 100⟩ ∧
    atMostOnePerUser
      ((⟨[], [⟨1, "R1x3", 100⟩], 4, 100⟩
        : AuthState (List User) (List RefreshTokenRec) Nat).tokens) ∧
    storedFor [⟨1, "R1x3", 100⟩] 1 = some ⟨1, "R1x3", 100⟩ ∧
    refreshToken demoService ⟨[], [⟨1, "R1x3", 100⟩], 4, 100⟩ "R1x1"
      = (.error .invalidRefreshToken, ⟨[], [⟨1, "R1x3", 100⟩], 4, 100⟩) ∧
    (refreshToken demoService ⟨[], [⟨1, "R1x3", 100⟩], 4, 100⟩ "R1x3").1
      = .ok ⟨"A1x4", "R1x5"⟩ :=
  token_rotation_invariant
    demoService ⟨[⟨1, "alice", "pw1salt", .student, 0⟩], [], 0, 100⟩
    ⟨[⟨1, "alice", "pw1salt", .student, 0⟩], [⟨1, "R1x1", 100⟩], 2, 100⟩
    "alice" "pw1" ⟨1, "alice", "pw1salt", .student, 0⟩ ⟨"A1x0", "R1x1"⟩
    demoService ⟨[], [], 0, 100⟩
    ⟨[⟨1, "bob", "pw2salt", .student, 100⟩], [⟨1, "R1x1", 100⟩], 2, 100⟩
    "bob" "pw2" "pw2salt" 1 [⟨1, "bob", "pw2salt", .student, 100⟩] ⟨"A1x0", "R1x1"⟩
    demoService ⟨[], [⟨1, "R1x1", 0⟩], 2, 100⟩ ⟨[], [⟨1, "R1x3", 100⟩], 4, 100⟩
    ⟨[], [⟨1, "R1x3", 100⟩], 6, 100⟩ "R1x1" 1 ⟨"A1x2", "R1x3"⟩ ⟨"A1x4", "R1x5"⟩
    rfl (by simp [atMostOnePerUser]) rfl rfl
    rfl (by simp [atMostOnePerUser]) rfl rfl rfl
    rfl (by simp [atMostOnePerUser]) rfl rfl (by decide) rfl rfl rfl

end UniSchedule
